import Mathlib

/-!
Shallow embedding of the Articulotor browser client's real-time session
logic, translated from the repository source:

* the WebSocket connect / reconnect-with-backoff / message-dispatch logic of
  the voice-session page (`VoiceSession`, with `CameraSession.jsx` sharing the
  same `connectWs`, `ws.onopen`, `ws.onmessage`, `ws.onclose` structure);
* the turn-submission path (`sendTranscript`, `handleHoldEnd`);
* the audio recorder hook (`use-audio-recorder.js`: `startRecording`,
  `stopRecording`, `resetState`).

Modelling conventions:

* React `useState` values, `useRef` cells and the zustand voice/app store
  fields relevant to the claims are collected into one record `PageState`;
  each event handler becomes a pure function `PageState -> PageState`.
* `WebSocket.readyState === WebSocket.OPEN` is modelled by the boolean field
  `socketOpen`; an `open` event sets it, a `close` event clears it.
* `setTimeout(connectWs, delay)` is modelled by appending `delay` to the
  observation log `scheduled` (the list of reconnect delays scheduled so far,
  in order).
* calls to `speak(...)` are logged in `spokenLog`, tagged by call site;
  `ws.send(...)` calls are logged in `sent`; `voiceStore.setState(...)` calls
  are logged in `voiceLog` in addition to updating `voiceState`;
  `console.error` on a parse failure is logged in `log`.
* `JSON.parse` of an inbound frame is modelled by the sum type `Frame`:
  either the payload parses to a structured message (`parsed`) or it does not
  (`malformed`).  Absent or non-string JSON fields are `Option` values; a JS
  number field (`clarity_score`) is modelled as `Option Int` (absent or
  non-number is `none`; NaN is excluded by the handler's `isNaN` guard).
-/

namespace Articulotor

/-- Constant WS_RECONNECT_BASE_MS from the session pages. -/
def WS_RECONNECT_BASE_MS : Nat := 1000

/-- Constant WS_RECONNECT_MAX_MS from the session pages. -/
def WS_RECONNECT_MAX_MS : Nat := 16000

/-- Constant WS_MAX_RETRIES from the session pages. -/
def WS_MAX_RETRIES : Nat := 5

/-- Record of a `speak(...)` invocation, tagged by the call site in
`ws.onmessage` (the welcome branch or the ai_response branch). -/
inductive Spoken where
  | welcome (text : String)
  | aiResponse (text : String)
  deriving Repr, DecidableEq

/-- Outbound messages built by the page and passed to `ws.send`. -/
inductive OutMsg where
  | userAudioTranscript (text : String)
  | endSession
  deriving Repr, DecidableEq

/-- The `analysis` object optionally carried by an `ai_response` payload.
`filler_words` absent is identified with the empty list (both are falsy
through the optional-chaining length test); `clarity_score` is `none` when
absent or not a (non-NaN) number. -/
structure Analysis where
  filler_words : List String
  clarity_score : Option Int
  deriving Repr, DecidableEq

/-- Parsed inbound payloads, discriminated on their `type` field exactly as
in `ws.onmessage`.  `other` covers any `type` value the handler does not
test for (it falls through every branch). -/
inductive InMsg where
  | welcome (message : Option String) (scenarioOpening : Option String)
  | aiResponse (text : String) (analysis : Option Analysis)
  | sessionEnded
  | other (t : String)
  deriving Repr, DecidableEq

/-- Result of `JSON.parse(event.data)`: a structured message, or a parse
failure carrying the raw frame text. -/
inductive Frame where
  | malformed (raw : String)
  | parsed (m : InMsg)
  deriving Repr, DecidableEq

/-- The state visible to the session page's handlers: React state, refs and
the store fields the claims are about, plus observation logs. -/
structure PageState where
  sessionId : String
  socketOpen : Bool
  wsStatus : String
  reconnectCount : Nat
  scheduled : List Nat
  welcomePlayed : Bool
  analyserAttached : Bool
  recorderActive : Bool
  aiQuestion : String
  isThinking : Bool
  isHolding : Bool
  fillerFlash : Bool
  voiceState : String
  voiceLog : List String
  audioLevel : Rat
  errorMsg : Option String
  transcript : String
  fillerCount : Nat
  wpm : Int
  sent : List OutMsg
  spokenLog : List Spoken
  navigatedTo : Option String
  log : List String
  deriving Repr, DecidableEq

/-- The voice store's `setState`: updates the current state string and logs
the call. -/
def setVoice (st : String) (s : PageState) : PageState :=
  { s with voiceState := st, voiceLog := s.voiceLog ++ [st] }

/-- Initial state of a freshly mounted session view: `useState`/`useRef`
initial values of the page plus the stores' initial values. -/
def mountInit (sid : String) : PageState :=
  { sessionId := sid
    socketOpen := false
    wsStatus := "idle"
    reconnectCount := 0
    scheduled := []
    welcomePlayed := false
    analyserAttached := false
    recorderActive := false
    aiQuestion := ""
    isThinking := false
    isHolding := false
    fillerFlash := false
    voiceState := "idle"
    voiceLog := []
    audioLevel := 0
    errorMsg := none
    transcript := ""
    fillerCount := 0
    wpm := 0
    sent := []
    spokenLog := []
    navigatedTo := none
    log := [] }

/-- The reconnect delay computed in `ws.onclose`:
`Math.min(WS_RECONNECT_BASE_MS * Math.pow(2, reconnectCount), WS_RECONNECT_MAX_MS)`. -/
def backoffDelay (retryCount : Nat) : Nat :=
  min (WS_RECONNECT_BASE_MS * 2 ^ retryCount) WS_RECONNECT_MAX_MS

/-- The `ws.onopen` handler: reset the retry counter, mark the status
connected, clear the store error.  The socket is now open. -/
def wsOnOpen (s : PageState) : PageState :=
  { s with socketOpen := true
           reconnectCount := 0
           wsStatus := "connected"
           errorMsg := none }

/-- The `ws.onclose` handler.  The socket is closed in every case; a close
with code 1000 returns immediately; otherwise, with the retry counter below
WS_MAX_RETRIES, a reconnect is scheduled after the backoff delay and the
counter incremented, else the status becomes failed and the store error is
set. -/
def wsOnClose (code : Nat) (s : PageState) : PageState :=
  let s0 := { s with socketOpen := false }
  if code = 1000 then s0
  else if s0.reconnectCount < WS_MAX_RETRIES then
    { s0 with wsStatus := "reconnecting"
              reconnectCount := s0.reconnectCount + 1
              scheduled := s0.scheduled ++ [backoffDelay s0.reconnectCount] }
  else
    { s0 with wsStatus := "failed"
              errorMsg := some "Connection lost. Please refresh to retry." }

/-- The `connectWs` body as far as modelled state goes: it closes any prior
socket and creates a fresh (not yet open) one; it does not touch the status,
the retry counter or the welcome flag.  (With no current session it returns
early, out of scope here.) -/
def connectWs (s : PageState) : PageState :=
  { s with socketOpen := false }

/-- The `ws.onerror` handler: only sets the store error. -/
def wsOnError (s : PageState) : PageState :=
  { s with errorMsg := some "Connection error" }

/-- JS string fallback through the `||` operator: the left operand if it is
present and non-empty (truthy), the right operand otherwise. -/
def jsOrStr (a : Option String) (b : String) : String :=
  match a with
  | some s => if s = "" then b else s
  | none => b

/-- The welcome text: `data.message || data.scenario?.opening || "Let's begin."`. -/
def welcomeText (message scenarioOpening : Option String) : String :=
  jsOrStr message (jsOrStr scenarioOpening "Let\x27s begin.")

/-- The fallback phrase substituted for an empty transcript in
`sendTranscript` / `handleHoldEnd`. -/
def FALLBACK_TEXT : String :=
  "I understand your point and would like to respond..."

/-- Character class stripped by the JS `String.prototype.trim`: tab, line
feed, vertical tab, form feed, carriage return, space, no-break space,
line and paragraph separators and the byte-order mark (the exotic Unicode
space separators are omitted; no claim depends on them). -/
def isJsWhitespaceChar (c : Char) : Bool :=
  c.val = 0x9 || c.val = 0xA || c.val = 0xB || c.val = 0xC || c.val = 0xD ||
  c.val = 0x20 || c.val = 0xA0 || c.val = 0x2028 || c.val = 0x2029 ||
  c.val = 0xFEFF

/-- The JS `transcript.trim()`: strip leading and trailing whitespace. -/
def jsTrim (s : String) : String :=
  String.mk
    (((s.data.dropWhile isJsWhitespaceChar).reverse.dropWhile
        isJsWhitespaceChar).reverse)

/-- The text actually placed in the outbound `user_audio_transcript`
message: `transcriptRef.current.trim() || FALLBACK_TEXT`. -/
def submittedText (transcript : String) : String :=
  if jsTrim transcript = "" then FALLBACK_TEXT else jsTrim transcript

/-- `sendTranscript` from the voice session page: only when the socket is
open, send the (fallback-substituted) transcript, clear the transcript and
start the thinking timer; otherwise do nothing. -/
def sendTranscript (s : PageState) : PageState :=
  if s.socketOpen then
    { s with sent := s.sent ++ [OutMsg.userAudioTranscript (submittedText s.transcript)]
             transcript := ""
             isThinking := true }
  else s

/-- Effect of the `ai_response` branch's `data.analysis` block on the app
store metrics: a non-empty filler word list bumps the cumulative filler
count (and flashes the counter); a numeric clarity score sets wpm to twice
its value. -/
def applyAnalysis (a : Analysis) (s : PageState) : PageState :=
  let s1 :=
    if a.filler_words.length ≠ 0 then
      { s with fillerCount := s.fillerCount + a.filler_words.length
               fillerFlash := true }
    else s
  match a.clarity_score with
  | some c => { s1 with wpm := c * 2 }
  | none => s1

/-- Dispatch of a successfully parsed inbound message, following the
`if / else if` chain of `ws.onmessage`. -/
def handleParsed (m : InMsg) (s : PageState) : PageState :=
  match m with
  | InMsg.welcome message opening =>
    let msg := welcomeText message opening
    let s1 := { s with aiQuestion := msg, isThinking := false }
    if s1.welcomePlayed then s1
    else { s1 with welcomePlayed := true
                   spokenLog := s1.spokenLog ++ [Spoken.welcome msg] }
  | InMsg.aiResponse text analysis =>
    let s1 := { s with isThinking := false, aiQuestion := text }
    let s2 :=
      match analysis with
      | some a => applyAnalysis a s1
      | none => s1
    let s3 := setVoice "processing" s2
    { s3 with spokenLog := s3.spokenLog ++ [Spoken.aiResponse text] }
  | InMsg.sessionEnded =>
    { s with navigatedTo := some ("/feedback/" ++ s.sessionId) }
  | InMsg.other _ => s

/-- The whole `ws.onmessage` handler: a payload that fails to parse is
logged and dropped; a parsed payload is dispatched. -/
def wsOnMessage (f : Frame) (s : PageState) : PageState :=
  match f with
  | Frame.malformed _ =>
    { s with log := s.log ++ ["Failed to parse WebSocket message:"] }
  | Frame.parsed m => handleParsed m s

/-- Store side effect of awaiting `stopRecording()` from the page: when a
recorder is active, its teardown calls `resetState`, which zeroes the audio
level and sets the voice state back to idle. -/
def recorderStopStoreEffect (s : PageState) : PageState :=
  if s.recorderActive then
    setVoice "idle" { s with recorderActive := false, audioLevel := 0 }
  else s

/-- `handleHoldStart`: mark holding, stop speech, clear the thinking timer,
set the voice state to listening, start the recorder (`startOk` is the
boolean outcome of `startRecording`, which on success sets the state to
listening again and on failure resets the store), then attach the analyser
when available and not yet attached. -/
def handleHoldStart (startOk : Bool) (s : PageState) : PageState :=
  let s1 := setVoice "listening" { s with isHolding := true, isThinking := false }
  let s2 :=
    if startOk then setVoice "listening" { s1 with recorderActive := true }
    else setVoice "idle" { s1 with audioLevel := 0 }
  if startOk && !s2.analyserAttached then { s2 with analyserAttached := true }
  else s2

/-- `handleHoldEnd`: a no-op unless holding; otherwise clear the holding
flag, detach the silence analyser, set the voice state to processing, await
the recorder teardown, stop speech recognition and run `sendTranscript`. -/
def handleHoldEnd (s : PageState) : PageState :=
  if s.isHolding then
    sendTranscript
      (recorderStopStoreEffect
        (setVoice "processing" { s with isHolding := false, analyserAttached := false }))
  else s

/-- `handleSilenceDetected`: a no-op unless holding; otherwise clear the
holding flag, set processing, await recorder teardown, stop recognition and
send the transcript. -/
def handleSilenceDetected (s : PageState) : PageState :=
  if s.isHolding then
    sendTranscript
      (recorderStopStoreEffect
        (setVoice "processing" { s with isHolding := false, isThinking := true }))
  else s

/-- The cleanup function of the connect effect, run when the session view
unmounts: clear the reconnect timer, close the socket with code 1000, reset
the welcome-played flag, stop speech, clear the thinking timer. -/
def unmountCleanup (s : PageState) : PageState :=
  { s with socketOpen := false, welcomePlayed := false, isThinking := false }

/-- The events that can reach the mounted session view. -/
inductive Event where
  | wsOpen
  | wsMessage (f : Frame)
  | wsClose (code : Nat)
  | wsError
  | connect
  | holdStart (startOk : Bool)
  | holdEnd
  | silence
  deriving Repr, DecidableEq

/-- One step of the mounted session view. -/
def step (e : Event) (s : PageState) : PageState :=
  match e with
  | Event.wsOpen => wsOnOpen s
  | Event.wsMessage f => wsOnMessage f s
  | Event.wsClose code => wsOnClose code s
  | Event.wsError => wsOnError s
  | Event.connect => connectWs s
  | Event.holdStart ok => handleHoldStart ok s
  | Event.holdEnd => handleHoldEnd s
  | Event.silence => handleSilenceDetected s

/-- Run a sequence of events against the mounted view. -/
def runEvents (events : List Event) (s : PageState) : PageState :=
  events.foldl (fun s e => step e s) s

/-- Run a sequence of close events (one `ws.onclose` per listed close code)
with no other event in between. -/
def runCloses (codes : List Nat) (s : PageState) : PageState :=
  codes.foldl (fun s c => wsOnClose c s) s

/-- Number of welcome-branch `speak` invocations in a spoken log. -/
def welcomeSpeakCount (l : List Spoken) : Nat :=
  l.countP fun sp =>
    match sp with
    | Spoken.welcome _ => true
    | Spoken.aiResponse _ => false

/-!
Model of `use-audio-recorder.js`.  The `MediaRecorder.state` string is kept
as in the browser API (`inactive`, `recording`, `paused`); the absence of a
recorder (`mediaRecorderRef.current` null) is `none`.  A finalized clip is
a `Blob` built from the buffered chunks; chunk payloads are opaque and
modelled as natural numbers.
-/

/-- A finalized audio blob: its parts and MIME type. -/
structure Blob where
  parts : List Nat
  type : String
  deriving Repr, DecidableEq

/-- Constant: the teardown timeout passed to `setTimeout` in `stopRecording`. -/
def STOP_TIMEOUT_MS : Nat := 5000

/-- How the promise returned by `stopRecording` resolves: immediately (no or
inactive recorder), through the recorder's `onstop` event, or through the
teardown timeout after the given number of milliseconds. -/
inductive StopResolution where
  | immediate (result : Option Blob)
  | onStop (result : Option Blob)
  | timeoutAfter (ms : Nat) (result : Option Blob)
  deriving Repr, DecidableEq

/-- `stopRecording` from `use-audio-recorder.js`.  `recorder` is the current
`MediaRecorder` state (or `none` when no recorder exists), `chunks` the
buffered audio chunks, and `stopFires` tells whether the underlying `onstop`
event ever fires before the 5000 ms timeout. -/
def stopRecording (recorder : Option String) (chunks : List Nat)
    (stopFires : Bool) : StopResolution :=
  match recorder with
  | none => StopResolution.immediate none
  | some st =>
    if st = "inactive" then StopResolution.immediate none
    else if stopFires then
      StopResolution.onStop
        (if chunks.length > 0 then some (Blob.mk chunks "audio/webm") else none)
    else StopResolution.timeoutAfter STOP_TIMEOUT_MS none

/-- The slice of the voice store touched by the recorder hook. -/
structure VoiceStore where
  state : String
  audioLevel : Rat
  deriving Repr, DecidableEq

/-- `resetState` from `use-audio-recorder.js`: zero the audio level and set
the voice state to idle. -/
def resetState (v : VoiceStore) : VoiceStore :=
  { v with audioLevel := 0, state := "idle" }

/-- The ways `startRecording` can go, mirroring its `try`/`catch` structure:
success; `getUserMedia` rejecting (permission denied or device error, caught
by the outer `catch`); the `AudioContext` constructor throwing (caught by
the dedicated inner `catch`); or any later step throwing (also caught by the
outer `catch`). -/
inductive StartOutcome where
  | success
  | getUserMediaError
  | audioContextError
  | otherError
  deriving Repr, DecidableEq

/-- `startRecording` from `use-audio-recorder.js`: on success the recorder
starts and the voice state becomes listening and `true` is returned; on any
failure the relevant `catch` runs `resetState` and returns `false`.  Every
outcome returns normally (the function never throws). -/
def startRecording (outcome : StartOutcome) (v : VoiceStore) :
    Bool × VoiceStore :=
  match outcome with
  | StartOutcome.success => (true, { v with state := "listening" })
  | StartOutcome.getUserMediaError => (false, resetState v)
  | StartOutcome.audioContextError => (false, resetState v)
  | StartOutcome.otherError => (false, resetState v)

/-!
Concrete states used by witnesses and counterexamples.
-/

/-- A state in which the welcome message has already been played. -/
def exPlayedState : PageState :=
  { mountInit "abc123" with welcomePlayed := true }

/-- A turn completing while the socket is closed, with accumulated
transcript text. -/
def exClosedTurnState : PageState :=
  { mountInit "abc123" with
      isHolding := true
      socketOpen := false
      recorderActive := true
      voiceState := "listening"
      transcript := "hello there" }

/-- The terminal failed connection state, as after five exhausted automatic
reconnect attempts. -/
def exFailedState : PageState :=
  { mountInit "abc123" with
      wsStatus := "failed"
      reconnectCount := 5
      scheduled := [1000, 2000, 4000, 8000, 16000]
      errorMsg := some "Connection lost. Please refresh to retry." }

/-- An open-socket state holding a whitespace-only transcript. -/
def exOpenBlankState : PageState :=
  { mountInit "abc123" with socketOpen := true, transcript := "   " }

/-- An event trace with a welcome, an abnormal close, a reconnect, a reopen
and a second welcome delivery within one mount. -/
def exReconnectTrace : List Event :=
  [ Event.wsOpen
  , Event.wsMessage (Frame.parsed (InMsg.welcome (some "Hi") none))
  , Event.wsClose 1006
  , Event.connect
  , Event.wsOpen
  , Event.wsMessage (Frame.parsed (InMsg.welcome (some "Hi") none)) ]

/-- Invariant tying the welcome-played flag to the number of welcome
playbacks: an unset flag means no welcome has been spoken, and in any case
at most one has. -/
def WelcomeInv (s : PageState) : Prop :=
  (s.welcomePlayed = false → welcomeSpeakCount s.spokenLog = 0)
  ∧ welcomeSpeakCount s.spokenLog ≤ 1

theorem welcomeSpeakCount_append (l1 l2 : List Spoken) :
    welcomeSpeakCount (l1 ++ l2) = welcomeSpeakCount l1 + welcomeSpeakCount l2 :=
  List.countP_append _ _ _

@[simp]
theorem setVoice_welcomePlayed (st : String) (s : PageState) :
    (setVoice st s).welcomePlayed = s.welcomePlayed := rfl

@[simp]
theorem setVoice_spokenLog (st : String) (s : PageState) :
    (setVoice st s).spokenLog = s.spokenLog := rfl

@[simp]
theorem sendTranscript_welcomePlayed (s : PageState) :
    (sendTranscript s).welcomePlayed = s.welcomePlayed := by
  by_cases h : s.socketOpen <;> simp [sendTranscript, h]

@[simp]
theorem sendTranscript_spokenLog (s : PageState) :
    (sendTranscript s).spokenLog = s.spokenLog := by
  by_cases h : s.socketOpen <;> simp [sendTranscript, h]

@[simp]
theorem recorderStopStoreEffect_welcomePlayed (s : PageState) :
    (recorderStopStoreEffect s).welcomePlayed = s.welcomePlayed := by
  by_cases h : s.recorderActive <;> simp [recorderStopStoreEffect, h]

@[simp]
theorem recorderStopStoreEffect_spokenLog (s : PageState) :
    (recorderStopStoreEffect s).spokenLog = s.spokenLog := by
  by_cases h : s.recorderActive <;> simp [recorderStopStoreEffect, h]

@[simp]
theorem applyAnalysis_welcomePlayed (a : Analysis) (s : PageState) :
    (applyAnalysis a s).welcomePlayed = s.welcomePlayed := by
  unfold applyAnalysis
  cases a.clarity_score <;> split <;> rfl

@[simp]
theorem applyAnalysis_spokenLog (a : Analysis) (s : PageState) :
    (applyAnalysis a s).spokenLog = s.spokenLog := by
  unfold applyAnalysis
  cases a.clarity_score <;> split <;> rfl

@[simp]
theorem handleHoldStart_welcomePlayed (ok : Bool) (s : PageState) :
    (handleHoldStart ok s).welcomePlayed = s.welcomePlayed := by
  cases ok <;> by_cases h : s.analyserAttached <;>
    simp [handleHoldStart, setVoice, h]

@[simp]
theorem handleHoldStart_spokenLog (ok : Bool) (s : PageState) :
    (handleHoldStart ok s).spokenLog = s.spokenLog := by
  cases ok <;> by_cases h : s.analyserAttached <;>
    simp [handleHoldStart, setVoice, h]

@[simp]
theorem handleHoldEnd_welcomePlayed (s : PageState) :
    (handleHoldEnd s).welcomePlayed = s.welcomePlayed := by
  unfold handleHoldEnd
  split <;> simp

@[simp]
theorem handleHoldEnd_spokenLog (s : PageState) :
    (handleHoldEnd s).spokenLog = s.spokenLog := by
  unfold handleHoldEnd
  split <;> simp

@[simp]
theorem handleSilenceDetected_welcomePlayed (s : PageState) :
    (handleSilenceDetected s).welcomePlayed = s.welcomePlayed := by
  unfold handleSilenceDetected
  split <;> simp

@[simp]
theorem handleSilenceDetected_spokenLog (s : PageState) :
    (handleSilenceDetected s).spokenLog = s.spokenLog := by
  unfold handleSilenceDetected
  split <;> simp

/-- C2: a close with the normal-closure code 1000 leaves the connection
status, the retry counter and the schedule of reconnects unchanged,
whatever the prior retry count; a close with any other code runs the
backoff behaviour: below the retry cap it schedules a reconnect after the
backoff delay, increments the counter and sets the status to reconnecting,
and at the cap it sets the status to failed with nothing further scheduled. -/
theorem normal_close_suppresses_reconnect (s : PageState) (c : Nat) :
    ((wsOnClose 1000 s).wsStatus = s.wsStatus
      ∧ (wsOnClose 1000 s).reconnectCount = s.reconnectCount
      ∧ (wsOnClose 1000 s).scheduled = s.scheduled)
    ∧ (c ≠ 1000 →
        (s.reconnectCount < WS_MAX_RETRIES →
          (wsOnClose c s).wsStatus = "reconnecting"
          ∧ (wsOnClose c s).reconnectCount = s.reconnectCount + 1
          ∧ (wsOnClose c s).scheduled = s.scheduled ++ [backoffDelay s.reconnectCount])
        ∧ (WS_MAX_RETRIES ≤ s.reconnectCount →
          (wsOnClose c s).wsStatus = "failed"
          ∧ (wsOnClose c s).reconnectCount = s.reconnectCount
          ∧ (wsOnClose c s).scheduled = s.scheduled)) := by
  refine ⟨by simp [wsOnClose], fun hc => ⟨fun hlt => ?_, fun hge => ?_⟩⟩
  · simp [wsOnClose, hc, hlt]
  · simp [wsOnClose, hc, Nat.not_lt.mpr hge]

/-- Witness for C2 at concrete states: a normal close in the failed state
changes nothing, and an abnormal close from a fresh mount schedules the
first reconnect. -/
theorem normal_close_suppresses_reconnect_witness :
    (wsOnClose 1000 exFailedState).wsStatus = exFailedState.wsStatus
    ∧ (wsOnClose 1000 exFailedState).reconnectCount = exFailedState.reconnectCount
    ∧ (wsOnClose 1006 (mountInit "abc123")).reconnectCount
        = (mountInit "abc123").reconnectCount + 1
    ∧ (wsOnClose 1006 exFailedState).wsStatus = "failed" := by
  have h1 := normal_close_suppresses_reconnect exFailedState 1006
  have h2 := normal_close_suppresses_reconnect (mountInit "abc123") 1006
  exact ⟨h1.1.1, h1.1.2.1,
    ((h2.2 (by decide)).1 (by decide)).2.1,
    ((h1.2 (by decide)).2 (by decide)).1⟩

/-- C4: a turn submitted over an open socket always sends a
`user_audio_transcript` whose text is non-empty: the fallback phrase
verbatim if the trimmed transcript is empty, else the trimmed transcript. -/
theorem turn_submission_nonempty_text (s : PageState) (h : s.socketOpen = true) :
    (sendTranscript s).sent
        = s.sent ++ [OutMsg.userAudioTranscript (submittedText s.transcript)]
    ∧ (jsTrim s.transcript = "" → submittedText s.transcript = FALLBACK_TEXT)
    ∧ (jsTrim s.transcript ≠ "" → submittedText s.transcript = jsTrim s.transcript)
    ∧ submittedText s.transcript ≠ "" := by
  refine ⟨by simp [sendTranscript, h], fun he => by simp [submittedText, he],
    fun he => by simp [submittedText, he], ?_⟩
  by_cases he : jsTrim s.transcript = ""
  · simp only [submittedText, if_pos he]
    decide
  · simp only [submittedText, if_neg he]
    exact he

/-- Witness for C4: a whitespace-only transcript over an open socket sends
exactly the fallback phrase. -/
theorem turn_submission_nonempty_text_witness :
    (sendTranscript exOpenBlankState).sent
        = [OutMsg.userAudioTranscript FALLBACK_TEXT]
    ∧ submittedText exOpenBlankState.transcript ≠ "" := by
  have h := turn_submission_nonempty_text exOpenBlankState rfl
  refine ⟨h.1.trans ?_, h.2.2.2⟩
  rw [h.2.1 (by decide)]
  rfl

/-- C7: a frame whose payload fails to parse as JSON only logs the failure;
the turn state, connection status, transcript and metrics are untouched. -/
theorem malformed_payload_only_logged (s : PageState) (raw : String) :
    wsOnMessage (Frame.malformed raw) s
      = { s with log := s.log ++ ["Failed to parse WebSocket message:"] } := rfl

/-- C8: the capture stop operation always resolves: immediately with null
when no recorder exists or it is inactive; through the stop event with the
finalized clip (null when no chunks were buffered) when that event fires;
and with null after the 5000 ms timeout when it never fires. -/
theorem capture_stop_always_resolves (recorder : Option String)
    (chunks : List Nat) (stopFires : Bool) :
    (recorder = none ∨ recorder = some "inactive" →
        stopRecording recorder chunks stopFires = StopResolution.immediate none)
    ∧ (∀ st, recorder = some st → st ≠ "inactive" → stopFires = true →
        stopRecording recorder chunks stopFires
          = StopResolution.onStop
              (if chunks.length > 0 then some (Blob.mk chunks "audio/webm") else none))
    ∧ (∀ st, recorder = some st → st ≠ "inactive" → stopFires = false →
        stopRecording recorder chunks stopFires
          = StopResolution.timeoutAfter 5000 none)
    ∧ (stopRecording recorder chunks stopFires = StopResolution.immediate none
       ∨ (∃ b, stopRecording recorder chunks stopFires = StopResolution.onStop b)
       ∨ stopRecording recorder chunks stopFires
          = StopResolution.timeoutAfter 5000 none) := by
  refine ⟨?_, ?_, ?_, ?_⟩
  · rintro (rfl | rfl) <;> simp [stopRecording]
  · rintro st rfl hst rfl
    simp [stopRecording, hst]
  · rintro st rfl hst rfl
    simp [stopRecording, hst, STOP_TIMEOUT_MS]
  · cases recorder with
    | none => exact Or.inl rfl
    | some st =>
      by_cases hst : st = "inactive"
      · exact Or.inl (by simp [stopRecording, hst])
      · cases stopFires
        · exact Or.inr (Or.inr (by simp [stopRecording, hst, STOP_TIMEOUT_MS]))
        · exact Or.inr (Or.inl
            ⟨(if chunks.length > 0 then some (Blob.mk chunks "audio/webm")
              else none), by simp [stopRecording, hst]⟩)

/-- Witness for C8: an active recorder whose stop event never fires
resolves with null through the 5000 ms timeout, and an absent recorder
resolves immediately with null. -/
theorem capture_stop_always_resolves_witness :
    stopRecording (some "recording") [3, 4] false
        = StopResolution.timeoutAfter 5000 none
    ∧ stopRecording none [] true = StopResolution.immediate none
    ∧ stopRecording (some "recording") [3, 4] true
        = StopResolution.onStop (some (Blob.mk [3, 4] "audio/webm")) := by
  have h1 := capture_stop_always_resolves (some "recording") [3, 4] false
  have h2 := capture_stop_always_resolves none ([] : List Nat) true
  have h3 := capture_stop_always_resolves (some "recording") [3, 4] true
  exact ⟨h1.2.2.1 "recording" rfl (by decide) rfl,
    h2.1 (Or.inl rfl),
    (h3.2.1 "recording" rfl (by decide) rfl).trans (by decide)⟩

/-- C9: every capture-start failure (permission or device error from
getUserMedia, AudioContext construction failure, or any other error) makes
`startRecording` return false without throwing, with the voice state forced
back to idle and the audio level reset to 0; success returns true. -/
theorem capture_start_never_throws (outcome : StartOutcome) (v : VoiceStore) :
    (outcome ≠ StartOutcome.success →
        (startRecording outcome v).1 = false
        ∧ (startRecording outcome v).2.state = "idle"
        ∧ (startRecording outcome v).2.audioLevel = 0)
    ∧ (outcome = StartOutcome.success → (startRecording outcome v).1 = true) := by
  cases outcome <;> simp [startRecording, resetState]

/-- Witness for C9: a denied microphone permission returns false with an
idle, zero-level store; a successful start returns true. -/
theorem capture_start_never_throws_witness :
    (startRecording StartOutcome.getUserMediaError
        (VoiceStore.mk "listening" 1)).1 = false
    ∧ (startRecording StartOutcome.getUserMediaError
        (VoiceStore.mk "listening" 1)).2.state = "idle"
    ∧ (startRecording StartOutcome.getUserMediaError
        (VoiceStore.mk "listening" 1)).2.audioLevel = 0
    ∧ (startRecording StartOutcome.success (VoiceStore.mk "idle" 0)).1 = true := by
  have h1 := capture_start_never_throws StartOutcome.getUserMediaError
    (VoiceStore.mk "listening" 1)
  have h2 := capture_start_never_throws StartOutcome.success (VoiceStore.mk "idle" 0)
  exact ⟨(h1.1 (by decide)).1, (h1.1 (by decide)).2.1, (h1.1 (by decide)).2.2,
    h2.2 rfl⟩

/-- C10: a welcome payload whose `message` field and `scenario.opening`
field are both absent or empty displays and speaks the literal default
text "Let's begin.". -/
theorem welcome_default_text (s : PageState) (m o : Option String)
    (hm : m = none ∨ m = some "") (ho : o = none ∨ o = some "") :
    welcomeText m o = "Let\x27s begin."
    ∧ (wsOnMessage (Frame.parsed (InMsg.welcome m o)) s).aiQuestion
        = "Let\x27s begin."
    ∧ (s.welcomePlayed = false →
        (wsOnMessage (Frame.parsed (InMsg.welcome m o)) s).spokenLog
          = s.spokenLog ++ [Spoken.welcome "Let\x27s begin."]) := by
  have ht : welcomeText m o = "Let\x27s begin." := by
    rcases hm with rfl | rfl <;> rcases ho with rfl | rfl <;>
      simp [welcomeText, jsOrStr]
  refine ⟨ht, ?_, fun hw => ?_⟩
  · by_cases hw : s.welcomePlayed <;>
      simp [wsOnMessage, handleParsed, ht, hw]
  · simp [wsOnMessage, handleParsed, ht, hw]

/-- Witness for C10: a welcome frame with both fields missing, received on
a fresh mount, displays and speaks the default text. -/
theorem welcome_default_text_witness :
    (wsOnMessage (Frame.parsed (InMsg.welcome none none))
        (mountInit "abc123")).aiQuestion = "Let\x27s begin."
    ∧ (wsOnMessage (Frame.parsed (InMsg.welcome none none))
        (mountInit "abc123")).spokenLog = [Spoken.welcome "Let\x27s begin."] := by
  have h := welcome_default_text (mountInit "abc123") none none
    (Or.inl rfl) (Or.inl rfl)
  exact ⟨h.2.1, (h.2.2 rfl).trans (by decide)⟩

/-- C5 counterexample: a turn completes (`handleHoldEnd` with the holding
flag set) while the socket is closed and the accumulated transcript is
"hello there"; the handler leaves the transcript in place instead of
clearing it — `clearTranscript()` only runs inside the open-socket branch
of `sendTranscript`. -/
theorem closed_socket_turn_keeps_transcript :
    exClosedTurnState.isHolding = true
    ∧ exClosedTurnState.socketOpen = false
    ∧ exClosedTurnState.transcript = "hello there"
    ∧ (handleHoldEnd exClosedTurnState).transcript = "hello there"
    ∧ ¬(handleHoldEnd exClosedTurnState).transcript = "" := by decide

/-- C5 amended: when a turn completes while the socket is not open, the
handler still performs the `processing` UI transition (logged in the
voice-store setState log, followed by the recorder teardown's reset to
idle when a recorder was active), the outbound message is silently dropped
with no error raised — but the transcript is left unchanged, not cleared. -/
theorem closed_socket_turn_drop (s : PageState)
    (hh : s.isHolding = true) (ho : s.socketOpen = false) :
    (handleHoldEnd s).voiceLog
        = s.voiceLog ++ ["processing"]
            ++ (if s.recorderActive then ["idle"] else [])
    ∧ (handleHoldEnd s).sent = s.sent
    ∧ (handleHoldEnd s).transcript = s.transcript
    ∧ (handleHoldEnd s).errorMsg = s.errorMsg := by
  by_cases hr : s.recorderActive <;>
    simp [handleHoldEnd, hh, ho, hr, recorderStopStoreEffect, setVoice,
      sendTranscript]

/-- Witness for the amended C5 at the concrete closed-socket turn state. -/
theorem closed_socket_turn_drop_witness :
    (handleHoldEnd exClosedTurnState).voiceLog = ["processing", "idle"]
    ∧ (handleHoldEnd exClosedTurnState).sent = []
    ∧ (handleHoldEnd exClosedTurnState).transcript
        = exClosedTurnState.transcript := by
  have h := closed_socket_turn_drop exClosedTurnState rfl rfl
  exact ⟨h.1.trans (by decide), h.2.1.trans (by decide), h.2.2.1⟩

/-- C6 counterexample: from the terminal failed state, the manual
user-triggered `connectWs` call (the Retry button handler) does not set
the status to connecting — no code path ever assigns a `connecting`
status; the status stays `failed` until `ws.onopen` fires. -/
theorem manual_retry_no_connecting_status :
    exFailedState.wsStatus = "failed"
    ∧ ¬(connectWs exFailedState).wsStatus = "connecting"
    ∧ (connectWs exFailedState).wsStatus = "failed" := by decide

/-- C6 amended: every successful open resets the retry counter to 0 and
sets the status to connected; after the failed state, a manual `connectWs`
call leaves the status at `failed` (there is no `connecting` status), and
the subsequent successful open resets the counter to 0 and sets the status
to connected. -/
theorem open_resets_retry_counter (s : PageState) :
    ((wsOnOpen s).reconnectCount = 0 ∧ (wsOnOpen s).wsStatus = "connected")
    ∧ (s.wsStatus = "failed" → (connectWs s).wsStatus = "failed")
    ∧ ((wsOnOpen (connectWs s)).reconnectCount = 0
       ∧ (wsOnOpen (connectWs s)).wsStatus = "connected") := by
  exact ⟨⟨rfl, rfl⟩, fun h => h, ⟨rfl, rfl⟩⟩

/-- Witness for the amended C6: the open after a manual retry from the
failed state yields a connected status with a zeroed retry counter. -/
theorem open_resets_retry_counter_witness :
    (connectWs exFailedState).wsStatus = "failed"
    ∧ (wsOnOpen (connectWs exFailedState)).reconnectCount = 0
    ∧ (wsOnOpen (connectWs exFailedState)).wsStatus = "connected" := by
  have h := open_resets_retry_counter exFailedState
  exact ⟨h.2.1 rfl, h.2.2.1, h.2.2.2⟩

theorem runCloses_characterization (codes : List Nat) :
    ∀ s : PageState, (∀ c ∈ codes, c ≠ 1000) →
      s.reconnectCount ≤ WS_MAX_RETRIES →
      (runCloses codes s).scheduled
          = s.scheduled
            ++ (List.range' s.reconnectCount
                  (min codes.length (WS_MAX_RETRIES - s.reconnectCount))).map
                backoffDelay
      ∧ (runCloses codes s).reconnectCount
          = min (s.reconnectCount + codes.length) WS_MAX_RETRIES
      ∧ (runCloses codes s).wsStatus
          = (if codes.length = 0 then s.wsStatus
             else if s.reconnectCount + codes.length ≤ WS_MAX_RETRIES then
               "reconnecting"
             else "failed") := by
  have hmr : WS_MAX_RETRIES = 5 := rfl
  induction codes with
  | nil =>
    intro s _ hk
    refine ⟨by simp [runCloses], ?_, by simp [runCloses]⟩
    simpa [runCloses] using (Nat.min_eq_left hk).symm
  | cons c cs ih =>
    intro s hc hk
    have hcne : c ≠ 1000 := hc c (List.mem_cons_self c cs)
    have hcs : ∀ x ∈ cs, x ≠ 1000 := fun x hx => hc x (List.mem_cons_of_mem c hx)
    have hrun : runCloses (c :: cs) s = runCloses cs (wsOnClose c s) := rfl
    by_cases hlt : s.reconnectCount < WS_MAX_RETRIES
    · have hsch : (wsOnClose c s).scheduled
          = s.scheduled ++ [backoffDelay s.reconnectCount] := by
        simp [wsOnClose, hcne, hlt]
      have hcnt : (wsOnClose c s).reconnectCount = s.reconnectCount + 1 := by
        simp [wsOnClose, hcne, hlt]
      have hst : (wsOnClose c s).wsStatus = "reconnecting" := by
        simp [wsOnClose, hcne, hlt]
      have hk' : (wsOnClose c s).reconnectCount ≤ WS_MAX_RETRIES := by
        rw [hcnt]
        rw [hmr] at hlt ⊢
        omega
      obtain ⟨ih1, ih2, ih3⟩ := ih (wsOnClose c s) hcs hk'
      have hminsucc : min (cs.length + 1) (WS_MAX_RETRIES - s.reconnectCount)
          = min cs.length (WS_MAX_RETRIES - (s.reconnectCount + 1)) + 1 := by
        have h5 : WS_MAX_RETRIES - s.reconnectCount
            = (WS_MAX_RETRIES - (s.reconnectCount + 1)) + 1 := by
          rw [hmr] at hlt ⊢
          omega
        rw [h5, Nat.succ_min_succ]
      refine ⟨?_, ?_, ?_⟩
      · rw [hrun, ih1, hsch, hcnt, List.length_cons, hminsucc,
          List.range'_succ]
        simp [List.append_assoc]
      · rw [hrun, ih2, hcnt, List.length_cons]
        congr 1
        omega
      · rw [hrun, ih3, hcnt, hst, List.length_cons]
        by_cases h0 : cs.length = 0
        · have hle : s.reconnectCount + (0 + 1) ≤ WS_MAX_RETRIES := by
            rw [hmr] at hlt ⊢
            omega
          simp [h0, hle]
        · have harith : s.reconnectCount + 1 + cs.length
              = s.reconnectCount + (cs.length + 1) := by omega
          simp only [h0, if_neg h0, harith]
          simp
    · have hsch : (wsOnClose c s).scheduled = s.scheduled := by
        simp [wsOnClose, hcne, hlt]
      have hcnt : (wsOnClose c s).reconnectCount = s.reconnectCount := by
        simp [wsOnClose, hcne, hlt]
      have hst : (wsOnClose c s).wsStatus = "failed" := by
        simp [wsOnClose, hcne, hlt]
      have h5 : s.reconnectCount = WS_MAX_RETRIES := by
        omega
      have hk' : (wsOnClose c s).reconnectCount ≤ WS_MAX_RETRIES := by
        rw [hcnt]
        exact hk
      obtain ⟨ih1, ih2, ih3⟩ := ih (wsOnClose c s) hcs hk'
      refine ⟨?_, ?_, ?_⟩
      · rw [hrun, ih1, hsch, hcnt, h5, List.length_cons]
        simp
      · rw [hrun, ih2, hcnt, h5, List.length_cons]
        rw [Nat.min_eq_right (by omega), Nat.min_eq_right (by omega)]
      · rw [hrun, ih3, hcnt, hst, h5, List.length_cons]
        by_cases h0 : cs.length = 0
        · simp [h0]
        · have hgt : ¬WS_MAX_RETRIES + cs.length ≤ WS_MAX_RETRIES := by
            omega
          have hgt' : ¬WS_MAX_RETRIES + (cs.length + 1) ≤ WS_MAX_RETRIES := by
            omega
          simp [h0, hgt, hgt']

/-- C1: for every sequence of abnormal closes (codes other than 1000) with
no successful open in between, starting from a fresh mount: the list of
scheduled reconnect delays is the backoff sequence, so the k-th delay
(0-indexed) is min(1000 * 2^k, 16000); at most 5 reconnects are ever
scheduled; and once the 5 attempts are exhausted the status becomes failed
with the schedule stopped at 5 entries. -/
theorem reconnect_backoff_schedule (sid : String) (codes : List Nat)
    (hc : ∀ c ∈ codes, c ≠ 1000) :
    (runCloses codes (mountInit sid)).scheduled
        = (List.range (min codes.length WS_MAX_RETRIES)).map backoffDelay
    ∧ (∀ k, k < (runCloses codes (mountInit sid)).scheduled.length →
        (runCloses codes (mountInit sid)).scheduled[k]?
          = some (min (1000 * 2 ^ k) 16000))
    ∧ (runCloses codes (mountInit sid)).scheduled.length ≤ 5
    ∧ (WS_MAX_RETRIES < codes.length →
        (runCloses codes (mountInit sid)).wsStatus = "failed"
        ∧ (runCloses codes (mountInit sid)).scheduled.length = WS_MAX_RETRIES) := by
  obtain ⟨h1, _, h3⟩ :=
    runCloses_characterization codes (mountInit sid) hc (by simp [mountInit])
  have hcnt0 : (mountInit sid).reconnectCount = 0 := rfl
  have hsch0 : (mountInit sid).scheduled = [] := rfl
  rw [hcnt0, hsch0] at h1
  have hmr : WS_MAX_RETRIES = 5 := rfl
  have h1' : (runCloses codes (mountInit sid)).scheduled
      = (List.range (min codes.length WS_MAX_RETRIES)).map backoffDelay := by
    rw [h1, List.range_eq_range']
    simp
  have hlen : (runCloses codes (mountInit sid)).scheduled.length
      = min codes.length WS_MAX_RETRIES := by
    rw [h1']
    simp
  refine ⟨h1', ?_, ?_, ?_⟩
  · intro k hk
    rw [hlen] at hk
    rw [h1', List.getElem?_map, List.getElem?_range (by omega)]
    simp [backoffDelay, WS_RECONNECT_BASE_MS, WS_RECONNECT_MAX_MS]
  · rw [hlen, hmr]
    omega
  · intro hgt
    constructor
    · rw [h3, hcnt0]
      have h0 : ¬codes.length = 0 := by omega
      rw [if_neg h0,
        if_neg (by omega : ¬0 + codes.length ≤ WS_MAX_RETRIES)]
    · rw [hlen]
      omega

/-- Witness for C1: six consecutive abnormal closes schedule exactly the
delays 1000, 2000, 4000, 8000, 16000 and leave the connection failed. -/
theorem reconnect_backoff_schedule_witness :
    (runCloses [1006, 1006, 1006, 1006, 1006, 1006]
        (mountInit "abc123")).scheduled = [1000, 2000, 4000, 8000, 16000]
    ∧ (runCloses [1006, 1006, 1006, 1006, 1006, 1006]
        (mountInit "abc123")).wsStatus = "failed"
    ∧ (runCloses [1006, 1006, 1006, 1006, 1006, 1006]
        (mountInit "abc123")).scheduled.length = 5 := by
  have h := reconnect_backoff_schedule "abc123"
    [1006, 1006, 1006, 1006, 1006, 1006] (by decide)
  refine ⟨h.1.trans (by decide), ?_, ?_⟩
  · exact (h.2.2.2 (by decide)).1
  · exact (h.2.2.2 (by decide)).2

@[simp]
theorem welcomeSpeakCount_nil : welcomeSpeakCount [] = 0 := rfl

@[simp]
theorem welcomeSpeakCount_append_simp (l1 l2 : List Spoken) :
    welcomeSpeakCount (l1 ++ l2)
      = welcomeSpeakCount l1 + welcomeSpeakCount l2 :=
  welcomeSpeakCount_append l1 l2

@[simp]
theorem welcomeSpeakCount_singleton_welcome (t : String) :
    welcomeSpeakCount [Spoken.welcome t] = 1 := rfl

@[simp]
theorem welcomeSpeakCount_singleton_ai (t : String) :
    welcomeSpeakCount [Spoken.aiResponse t] = 0 := rfl

@[simp]
theorem wsOnClose_welcomePlayed (code : Nat) (s : PageState) :
    (wsOnClose code s).welcomePlayed = s.welcomePlayed := by
  by_cases h1 : code = 1000
  · simp [wsOnClose, h1]
  · by_cases h2 : s.reconnectCount < WS_MAX_RETRIES <;>
      simp [wsOnClose, h1, h2]

@[simp]
theorem wsOnClose_spokenLog (code : Nat) (s : PageState) :
    (wsOnClose code s).spokenLog = s.spokenLog := by
  by_cases h1 : code = 1000
  · simp [wsOnClose, h1]
  · by_cases h2 : s.reconnectCount < WS_MAX_RETRIES <;>
      simp [wsOnClose, h1, h2]

theorem welcomeInv_of_preserved {s t : PageState}
    (hflag : t.welcomePlayed = s.welcomePlayed)
    (hlog : welcomeSpeakCount t.spokenLog = welcomeSpeakCount s.spokenLog)
    (h : WelcomeInv s) : WelcomeInv t :=
  ⟨fun hf => hlog.trans (h.1 (hflag.symm.trans hf)),
   by rw [hlog]; exact h.2⟩

theorem step_welcomePlayed_monotone (e : Event) (s : PageState)
    (h : s.welcomePlayed = true) : (step e s).welcomePlayed = true := by
  cases e with
  | wsOpen => simpa [step, wsOnOpen] using h
  | wsClose code => simpa [step] using h
  | wsError => simpa [step, wsOnError] using h
  | connect => simpa [step, connectWs] using h
  | wsMessage f =>
    cases f with
    | malformed raw => simpa [step, wsOnMessage] using h
    | parsed m =>
      cases m with
      | welcome mo oo => simp [step, wsOnMessage, handleParsed, h]
      | aiResponse t a =>
        cases a <;> simp [step, wsOnMessage, handleParsed, h]
      | sessionEnded => simpa [step, wsOnMessage, handleParsed] using h
      | other t => simpa [step, wsOnMessage, handleParsed] using h
  | holdStart ok => simpa [step] using h
  | holdEnd => simpa [step] using h
  | silence => simpa [step] using h

theorem step_preserves_welcomeInv (e : Event) (s : PageState)
    (h : WelcomeInv s) : WelcomeInv (step e s) := by
  cases e with
  | wsMessage f =>
    cases f with
    | malformed raw => exact welcomeInv_of_preserved rfl rfl h
    | parsed m =>
      cases m with
      | welcome mo oo =>
        by_cases hw : s.welcomePlayed
        · refine welcomeInv_of_preserved ?_ ?_ h <;>
            simp [step, wsOnMessage, handleParsed, hw]
        · have hw' : s.welcomePlayed = false := by simpa using hw
          have hflag :
              (step (Event.wsMessage (Frame.parsed (InMsg.welcome mo oo)))
                s).welcomePlayed = true := by
            simp [step, wsOnMessage, handleParsed, hw']
          have hlog :
              welcomeSpeakCount
                  (step (Event.wsMessage (Frame.parsed (InMsg.welcome mo oo)))
                    s).spokenLog
                = welcomeSpeakCount s.spokenLog + 1 := by
            simp [step, wsOnMessage, handleParsed, hw']
          refine ⟨fun hf => ?_, ?_⟩
          · rw [hflag] at hf
            exact Bool.noConfusion hf
          · rw [hlog, h.1 hw']
      | aiResponse t a =>
        refine welcomeInv_of_preserved ?_ ?_ h <;>
          cases a <;> simp [step, wsOnMessage, handleParsed]
      | sessionEnded => exact welcomeInv_of_preserved rfl rfl h
      | other t => exact welcomeInv_of_preserved rfl rfl h
  | wsOpen => exact welcomeInv_of_preserved rfl rfl h
  | wsClose code => refine welcomeInv_of_preserved ?_ ?_ h <;> simp [step]
  | wsError => exact welcomeInv_of_preserved rfl rfl h
  | connect => exact welcomeInv_of_preserved rfl rfl h
  | holdStart ok => refine welcomeInv_of_preserved ?_ ?_ h <;> simp [step]
  | holdEnd => refine welcomeInv_of_preserved ?_ ?_ h <;> simp [step]
  | silence => refine welcomeInv_of_preserved ?_ ?_ h <;> simp [step]

theorem runEvents_welcomeInv (events : List Event) :
    ∀ s : PageState, WelcomeInv s → WelcomeInv (runEvents events s) := by
  induction events with
  | nil => exact fun _ h => h
  | cons e es ih =>
    exact fun s h => ih (step e s) (step_preserves_welcomeInv e s h)

/-- C3: within one mounted session view, whatever events occur (including
any number of abnormal closes, reconnects and repeated welcome
deliveries), the welcome message is spoken at most once; the guarding
played-flag is never reset by any in-mount event, and is reset by the
unmount cleanup. -/
theorem welcome_spoken_at_most_once (sid : String) (events : List Event) :
    welcomeSpeakCount (runEvents events (mountInit sid)).spokenLog ≤ 1
    ∧ (∀ e : Event, ∀ s : PageState, s.welcomePlayed = true →
        (step e s).welcomePlayed = true)
    ∧ (∀ s : PageState, (unmountCleanup s).welcomePlayed = false) := by
  refine ⟨?_, step_welcomePlayed_monotone, fun _ => rfl⟩
  exact (runEvents_welcomeInv events (mountInit sid)
    ⟨fun _ => rfl, Nat.zero_le 1⟩).2

/-- Witness for C3: a trace delivering the welcome twice across an
abnormal close and reconnect speaks it exactly once. -/
theorem welcome_spoken_at_most_once_witness :
    welcomeSpeakCount
        (runEvents exReconnectTrace (mountInit "abc123")).spokenLog ≤ 1
    ∧ welcomeSpeakCount
        (runEvents exReconnectTrace (mountInit "abc123")).spokenLog = 1
    ∧ (step Event.wsOpen exPlayedState).welcomePlayed = true
    ∧ (unmountCleanup exPlayedState).welcomePlayed = false := by
  have h := welcome_spoken_at_most_once "abc123" exReconnectTrace
  exact ⟨h.1, by decide, h.2.1 Event.wsOpen exPlayedState (by decide),
    h.2.2 exPlayedState⟩

end Articulotor
